/-
Verification of the MCP protocol client (`app/mcp/mcp_client _bak1.py`,
`app/mcp/types.py`) of customer-support-mcp-system.

The client is shallowly embedded: Python dicts become ordered association
lists over a JSON value type `JVal` (Python dicts preserve insertion order),
exceptions become `Except`, and the network is a `Wire` value describing what
one HTTP exchange yields.  JSON text parsing (`json.loads`, a library
function external to the repository) is abstracted as a parameter
`parse : String → Option J` where it occurs.
-/
import Mathlib

set_option autoImplicit false

namespace MCP

/-- JSON-like values as Python sees them after `json.loads`: objects are
ordered key/value association lists (Python dicts preserve insertion order). -/
inductive JVal where
  | str (s : String)
  | num (n : Int)
  | bool (b : Bool)
  | null
  | arr (xs : List JVal)
  | obj (kvs : List (String × JVal))
deriving Repr

/-- A Python dict with JSON values. -/
abbrev Jobj := List (String × JVal)

mutual

def JVal.beq : JVal → JVal → Bool
  | .str a, .str b => a == b
  | .num a, .num b => a == b
  | .bool a, .bool b => a == b
  | .null, .null => true
  | .arr a, .arr b => JVal.beqList a b
  | .obj a, .obj b => JVal.beqObj a b
  | _, _ => false

def JVal.beqList : List JVal → List JVal → Bool
  | [], [] => true
  | x :: xs, y :: ys => JVal.beq x y && JVal.beqList xs ys
  | _, _ => false

def JVal.beqObj : Jobj → Jobj → Bool
  | [], [] => true
  | (k, v) :: xs, (l, w) :: ys => k == l && JVal.beq v w && JVal.beqObj xs ys
  | _, _ => false

end

instance : BEq JVal := ⟨JVal.beq⟩

/-- Python truthiness for JSON values: `None`, `False`, `0`, `""`, `[]`, `{}`
are falsy, everything else truthy. -/
def JVal.truthy : JVal → Bool
  | .str s => s ≠ ""
  | .num n => n ≠ 0
  | .bool b => b
  | .null => false
  | .arr xs => !xs.isEmpty
  | .obj kvs => !kvs.isEmpty

/-- Python `d.get(k)` on a dict: value of the first (only) binding of `k`. -/
def jLookup (o : Jobj) (k : String) : Option JVal :=
  match o with
  | [] => none
  | (k₀, v) :: rest => if k₀ = k then some v else jLookup rest k

/-- Python `d.get(k, default)` on a dict. -/
def jGetD (o : Jobj) (k : String) (d : JVal) : JVal :=
  (jLookup o k).getD d

/-- Python `x or d`: `x` when truthy, else `d`. -/
def orD (v d : JVal) : JVal := if v.truthy then v else d

mutual

/-- Python `repr()` of a JSON value (used by f-string interpolation of dicts). -/
def pyRepr : JVal → String
  | .str s => "\x27" ++ s ++ "\x27"
  | .num n => toString n
  | .bool b => if b then "True" else "False"
  | .null => "None"
  | .arr xs => "[" ++ String.intercalate ", " (pyReprList xs) ++ "]"
  | .obj kvs => "\x7b" ++ String.intercalate ", " (pyReprObj kvs) ++ "\x7d"

def pyReprList : List JVal → List String
  | [] => []
  | x :: xs => pyRepr x :: pyReprList xs

def pyReprObj : Jobj → List String
  | [] => []
  | (k, v) :: kvs => ("\x27" ++ k ++ "\x27: " ++ pyRepr v) :: pyReprObj kvs

end

/-- Python `str()` / f-string interpolation of a JSON value. -/
def pyStr : JVal → String
  | .str s => s
  | v => pyRepr v

/-! ## Transport codec: `MCPClient._parse_sse_response`

```python
data_obj = None
for raw_line in sse_text.splitlines():
    line = raw_line.strip()
    if line.lower().startswith("data:"):
        payload = line[5:].lstrip()
        try:
            data_obj = json.loads(payload)
        except Exception:
            pass
if data_obj is None:
    data_obj = json.loads(sse_text)
return data_obj
```

`json.loads` is abstracted as `parse : List Char → Option J` (`none` models
the raised `JSONDecodeError`).  Text is modelled as its character list. -/

/-- The characters `str.strip()` / `str.lstrip()` remove (ASCII whitespace;
the further Unicode whitespace Python strips plays no role here). -/
def isPySpace (c : Char) : Bool :=
  c = ' ' || c = '\t' || c = '\n' || c = '\r' || c = '\x0b' || c = '\x0c'

/-- Python `str.lstrip()`. -/
def pyLStrip (s : List Char) : List Char :=
  s.dropWhile isPySpace

/-- Python `str.strip()`. -/
def pyStrip (s : List Char) : List Char :=
  ((s.dropWhile isPySpace).reverse.dropWhile isPySpace).reverse

/-- Python `str.splitlines()` (`\r\n`, `\n` and `\r` boundaries; no trailing
empty line for a trailing boundary). -/
def pySplitLinesAux : List Char → List Char → List (List Char)
  | cur, [] => if cur.isEmpty then [] else [cur.reverse]
  | cur, '\r' :: '\n' :: rest => cur.reverse :: pySplitLinesAux [] rest
  | cur, '\n' :: rest => cur.reverse :: pySplitLinesAux [] rest
  | cur, '\r' :: rest => cur.reverse :: pySplitLinesAux [] rest
  | cur, c :: rest => pySplitLinesAux (c :: cur) rest

/-- Python `str.splitlines()`. -/
def pySplitLines (s : List Char) : List (List Char) :=
  pySplitLinesAux [] s

/-- The payload a single line contributes: `line = raw_line.strip()`, check
`line.lower().startswith("data:")`, take `line[5:].lstrip()`. -/
def linePayload (rawLine : List Char) : Option (List Char) :=
  let line := pyStrip rawLine
  if ['d', 'a', 't', 'a', ':'].isPrefixOf (line.map Char.toLower) then
    some (pyLStrip (line.drop 5))
  else none

/-- All `data:` payloads of an event-stream body, in order. -/
def dataPayloads (sseText : List Char) : List (List Char) :=
  (pySplitLines sseText).filterMap linePayload

/-- One loop iteration of `_parse_sse_response`: a `data:` line that parses
overwrites the accumulator; a failing parse or a non-`data:` line keeps it. -/
def sseStep {J : Type} (parse : List Char → Option J) (acc : Option J)
    (rawLine : List Char) : Option J :=
  match linePayload rawLine with
  | some payload =>
    match parse payload with
    | some v => some v
    | none => acc
  | none => acc

/-- Model of `MCPClient._parse_sse_response`: keep the last parseable `data:` payload;
if none was found, parse the whole body (whose failure propagates as the
raised decode error, modelled by `Except.error ()`). -/
def parse_sse_response {J : Type} (parse : List Char → Option J) (sseText : List Char) :
    Except Unit J :=
  match (pySplitLines sseText).foldl (sseStep parse) none with
  | some v => .ok v
  | none =>
    match parse sseText with
    | some v => .ok v
    | none => .error ()

/-! ## One HTTP exchange as seen by `MCPClient._send_request`

```python
resp = self.session.post(...)
resp.raise_for_status()
sid = resp.headers.get("mcp-session-id")
if sid:
    self.session_id = sid
...decode body (JSON or SSE)...
mcp_response = MCPResponse(**data)
if mcp_response.error:
    raise Exception(f"MCP Error: {mcp_response.error.get('message', mcp_response.error)}")
return mcp_response
except requests.exceptions.JSONDecodeError as e:  raise Exception(f"Failed to communicate with MCP server: {e}")
except requests.exceptions.RequestException as e: raise Exception(f"Failed to communicate with MCP server: {e}")
```

A `Wire` describes what the transport does for one exchange:
`httpError` is a failure of `post`/`raise_for_status` (connection refused,
timeout, non-2xx) — the session header is never read on this path;
`reply sid body` is an HTTP-level success whose `mcp-session-id` header is
`sid` and whose decoded body is either a decode failure (non-JSON /
malformed event-stream, `body = .error msg`) or a well-formed response
envelope. -/

/-- The decoded body of a well-formed response (`types.MCPResponse`):
optional `result` dict and optional `error` dict. -/
structure MCPResponseData where
  result : Option Jobj
  error : Option Jobj

/-- What the transport does on one exchange. -/
inductive Wire where
  | httpError (msg : String)
  | reply (sid : Option String) (body : Except String MCPResponseData)

/-- The exception raised by `_send_request`, with the message it carries. -/
inductive SendErr where
  | commFailure (msg : String)
  | mcpError (msg : String)

/-- The message `str(e)` of the raised exception. -/
def SendErr.toMessage : SendErr → String
  | .commFailure m => "Failed to communicate with MCP server: " ++ m
  | .mcpError m => "MCP Error: " ++ m

/-- The interpolation `f"{mcp_response.error.get('message', mcp_response.error)}"`. -/
def errMessage (e : Jobj) : String :=
  pyStr (jGetD e "message" (.obj e))

/-- Session-id update performed by `_send_request`: the header is read only
after `raise_for_status` (so never on an HTTP failure) but before the body is
decoded (so also on a decode failure); `if sid:` ignores an empty header. -/
def updateSid (sid : Option String) (w : Wire) : Option String :=
  match w with
  | .httpError _ => sid
  | .reply h _ =>
    match h with
    | some s => if s = "" then sid else some s
    | none => sid

/-- The value `_send_request` returns or the exception it raises.
A body carrying a truthy `error` object raises `MCP Error: ...`
(`if mcp_response.error:` — an empty error dict is falsy and is NOT treated
as an error). -/
def wireResult (w : Wire) : Except SendErr MCPResponseData :=
  match w with
  | .httpError m => .error (.commFailure m)
  | .reply _ body =>
    match body with
    | .error m => .error (.commFailure m)
    | .ok r =>
      match r.error with
      | some e => if e.isEmpty then .ok r else .error (.mcpError (errMessage e))
      | none => .ok r

/-! ## Session manager: `_make_headers` and the token over a run -/

/-- The `mcp-session-id` header `_make_headers` attaches: present iff the
stored token is truthy (`if self.session_id:`). -/
def sessionHeaderOf (sid : Option String) : Option String :=
  match sid with
  | some s => if s = "" then none else some s
  | none => none

/-- The stored token after processing a sequence of exchanges. -/
def sidFold (sid : Option String) (ws : List Wire) : Option String :=
  ws.foldl updateSid sid

/-- The non-empty session tokens the exchanges supplied, in order. -/
def suppliedTokens (ws : List Wire) : List String :=
  ws.filterMap fun w =>
    match w with
    | .reply (some s) _ => if s = "" then none else some s
    | _ => none

/-! ## Client state and connection lifecycle -/

/-- The mutable fields of `MCPClient` the claims are about. -/
structure ClientState where
  connected : Bool
  session_id : Option String
  server_capabilities : Option Jobj
deriving Repr

/-- State after `__init__`: disconnected, no token, no capabilities. -/
def initState : ClientState := ⟨false, none, none⟩

/-- The list `retry_delays = [1, 2, 4]` of `connect`. -/
def retry_delays : List Nat := [1, 2, 4]

/-- Observable outcome of one `connect()` call: final state, number of
`_send_request("initialize", ...)` attempts, the `time.sleep` delays in
order, and the returned value or raised exception message. -/
structure ConnectRun where
  state : ClientState
  sends : Nat
  sleeps : List Nat
  outcome : Except String Bool
deriving Repr

/-- The retry loop of `connect`
(`for attempt, delay in enumerate(retry_delays, 1)`), against a transport
`t` giving the exchange of each attempt.  On success: store
`resp.result or {}` as capabilities, send the (state-irrelevant)
`notifications/initialized` notification, set `connected = True`, return
`True`.  On failure: if `attempt < len(retry_delays)`, sleep `delay` and
retry, else raise wrapping the last error.  The exchange updates the session
id even when it raises. -/
def connectAux (t : Nat → Wire) (st : ClientState) (attempt : Nat)
    (rest : List Nat) (sends : Nat) (sleeps : List Nat) : ConnectRun :=
  match rest with
  | [] => ⟨st, sends, sleeps, .ok false⟩
  | delay :: rest' =>
    let sid' := updateSid st.session_id (t attempt)
    match wireResult (t attempt) with
    | .ok resp =>
      ⟨⟨true, sid', some (resp.result.getD [])⟩, sends + 1, sleeps, .ok true⟩
    | .error e =>
      if attempt < retry_delays.length then
        connectAux t { st with session_id := sid' } (attempt + 1) rest' (sends + 1)
          (sleeps ++ [delay])
      else
        ⟨{ st with session_id := sid' }, sends + 1, sleeps,
          .error ("Failed to connect to MCP server: " ++ e.toMessage)⟩

/-- Model of `MCPClient.connect`. -/
def connect (t : Nat → Wire) (st : ClientState) : ConnectRun :=
  connectAux t st 1 retry_delays 0 []

/-- Model of `MCPClient.disconnect`: a shutdown exchange is attempted only when
connected, its raise is caught and logged, the `finally` clears `connected`,
and the outer `finally` closes the pool with its own failure swallowed by
`except Exception: pass`.  `w` is what the shutdown exchange would do,
`closeResult` whether `session.close()` raises. -/
def disconnect (w : Wire) (closeResult : Except String Unit) (st : ClientState) :
    Except String ClientState :=
  let afterBody : ClientState :=
    if st.connected then
      match wireResult w with
      | .ok _ => { st with session_id := updateSid st.session_id w, connected := false }
      | .error _ => { st with session_id := updateSid st.session_id w, connected := false }
    else st
  match closeResult with
  | .ok _ => .ok afterBody
  | .error _ => .ok afterBody

/-! ## Tools and resources -/

/-- Model of `types.ToolCallResponse`, holding the raw values the constructor is
called with (`content=result.get("content", [])`,
`isError=result.get("isError", False)`). -/
structure ToolCallResponse where
  content : JVal
  isError : JVal
deriving Repr

/-- Model of `MCPClient.call_tool`: on success build the response from `resp.result
or {}`; on any raised failure return the synthetic flagged response
`ToolCallResponse(content=[{"type": "text", "text": f"Error: {e}"}],
isError=True)` instead of raising. -/
def call_tool (w : Wire) (st : ClientState) : ClientState × ToolCallResponse :=
  let st' := { st with session_id := updateSid st.session_id w }
  match wireResult w with
  | .ok resp =>
    let result := resp.result.getD []
    (st', ⟨jGetD result "content" (.arr []), jGetD result "isError" (.bool false)⟩)
  | .error e =>
    (st', ⟨.arr [.obj [("type", .str "text"), ("text", .str ("Error: " ++ e.toMessage))]],
      .bool true⟩)

/-- Model of `types.ToolParameter`. -/
structure ToolParameter where
  name : String
  type : String
  description : String
  required : Bool
  enum : Option (List String)
deriving Repr, DecidableEq

/-- Model of `types.Tool`. -/
structure Tool where
  name : String
  description : String
  parameters : List ToolParameter
deriving Repr, DecidableEq

/-- Model of `types.Resource`. -/
structure Resource where
  uri : String
  name : String
  description : Option String
  mimeType : Option String
deriving Repr, DecidableEq

/-- Access `.get`/`.items` on a value that must be a dict; anything else raises
(`AttributeError`), which the callers of interest catch. -/
def asObj : JVal → Except Unit Jobj
  | .obj o => .ok o
  | _ => .error ()

/-- A value pydantic must accept for a `str` field. -/
def asStr : JVal → Except Unit String
  | .str s => .ok s
  | _ => .error ()

/-- A value pydantic must accept for an `Optional[str]` field. -/
def asOptStr : Option JVal → Except Unit (Option String)
  | none => .ok none
  | some .null => .ok none
  | some (.str s) => .ok (some s)
  | some _ => .error ()

/-- A value pydantic must accept for `Optional[List[str]]` (`enum`). -/
def asOptStrList : Option JVal → Except Unit (Option (List String))
  | none => .ok none
  | some .null => .ok none
  | some (.arr xs) => (xs.mapM asStr).map some
  | some _ => .error ()

/-- Whether `sub` occurs as a contiguous run inside `s`. -/
def containsSeq (sub : List Char) : List Char → Bool
  | [] => sub.isEmpty
  | c :: tail => sub.isPrefixOf (c :: tail) || containsSeq sub tail

/-- Python `x in coll` for the membership test `name in required`:
element test on a list, key test on a dict, substring test on a string,
`TypeError` otherwise. -/
def pyIn (x : JVal) (coll : JVal) : Except Unit Bool :=
  match coll with
  | .arr xs => .ok (xs.contains x)
  | .obj kvs =>
    match x with
    | .str s => .ok (kvs.any fun kv => kv.1 == s)
    | _ => .ok false
  | .str s =>
    match x with
    | .str sub => .ok (containsSeq sub.toList s.toList)
    | _ => .error ()
  | _ => .error ()

/-- The value `schema = t.get("inputSchema", {}) or {}` — and `schema.get` then needs
a dict. -/
def toolSchema (t : Jobj) : Except Unit Jobj :=
  asObj (orD (jGetD t "inputSchema" (.obj [])) (.obj []))

/-- The value `properties = schema.get("properties", {}) or {}` — `.items()` then
needs a dict. -/
def toolProps (t : Jobj) : Except Unit Jobj := do
  let so ← toolSchema t
  asObj (orD (jGetD so "properties" (.obj [])) (.obj []))

/-- The value `required = schema.get("required", []) or []` (used only via `pyIn`). -/
def toolRequired (t : Jobj) : Except Unit JVal := do
  let so ← toolSchema t
  .ok (orD (jGetD so "required" (.arr [])) (.arr []))

/-- One entry of the `properties.items()` loop of `list_tools`:
`{"name": name, "type": info.get("type", "string"), "description":
info.get("description", ""), "required": name in required,
"enum": info.get("enum")}` validated as a `ToolParameter`. -/
def parseParam (required : JVal) (nm : String) (info : JVal) :
    Except Unit ToolParameter := do
  let io ← asObj info
  let ty ← asStr (jGetD io "type" (.str "string"))
  let desc ← asStr (jGetD io "description" (.str ""))
  let req ← pyIn (.str nm) required
  let en ← asOptStrList (jLookup io "enum")
  .ok ⟨nm, ty, desc, req, en⟩

/-- One iteration of the `for t in tools_data` loop: flatten the nested
schema into the parameter list (insertion order of `properties`) and build
`Tool(name=t["name"], description=t.get("description", ""), ...)`.
`t["name"]` raises `KeyError` when absent. -/
def parseTool (t : JVal) : Except Unit Tool := do
  let to_ ← asObj t
  let po ← toolProps to_
  let req ← toolRequired to_
  let params ← po.mapM fun kv => parseParam req kv.1 kv.2
  let nm ← match jLookup to_ "name" with
    | some v => asStr v
    | none => Except.error ()
  let desc ← asStr (jGetD to_ "description" (.str ""))
  .ok ⟨nm, desc, params⟩

/-- The `for t in tools_data` loop over the whole list.  Iterating an empty
dict or empty string yields no items (so an empty `Tool` list); any other
non-list iterates to a first element on which `.get` raises. -/
def parseToolsData : JVal → Except Unit (List Tool)
  | .arr ts => ts.mapM parseTool
  | .obj [] => .ok []
  | .str "" => .ok []
  | _ => .error ()

/-- The value `tools_data = resp.result.get("tools", []) if resp.result else []`
(`if resp.result` — an empty result dict is falsy). -/
def toolsData (result : Option Jobj) : JVal :=
  match result with
  | some res => if res.isEmpty then .arr [] else jGetD res "tools" (.arr [])
  | none => .arr []

/-- Model of `MCPClient.list_tools`: any raised failure — transport, decode,
protocol error, or parse/validation failure of an entry — is caught and
yields `[]`. -/
def list_tools (w : Wire) (st : ClientState) : ClientState × List Tool :=
  let st' := { st with session_id := updateSid st.session_id w }
  match wireResult w with
  | .ok resp =>
    match parseToolsData (toolsData resp.result) with
    | .ok ts => (st', ts)
    | .error _ => (st', [])
  | .error _ => (st', [])

/-- One `Resource(**r)` of the `list_resources` comprehension: `r` must be a
dict, `uri` and `name` are required `str` fields, `description` and
`mimeType` optional. -/
def parseResource (r : JVal) : Except Unit Resource := do
  let ro ← asObj r
  let uri ← match jLookup ro "uri" with
    | some v => asStr v
    | none => Except.error ()
  let nm ← match jLookup ro "name" with
    | some v => asStr v
    | none => Except.error ()
  let desc ← asOptStr (jLookup ro "description")
  let mt ← asOptStr (jLookup ro "mimeType")
  .ok ⟨uri, nm, desc, mt⟩

/-- The `[Resource(**r) for r in resources_data]` comprehension. -/
def parseResourcesData : JVal → Except Unit (List Resource)
  | .arr rs => rs.mapM parseResource
  | .obj [] => .ok []
  | .str "" => .ok []
  | _ => .error ()

/-- The value `resources_data = resp.result.get("resources", []) if resp.result else []`. -/
def resourcesData (result : Option Jobj) : JVal :=
  match result with
  | some res => if res.isEmpty then .arr [] else jGetD res "resources" (.arr [])
  | none => .arr []

/-- Model of `MCPClient.list_resources`: any raised failure is caught and yields `[]`. -/
def list_resources (w : Wire) (st : ClientState) : ClientState × List Resource :=
  let st' := { st with session_id := updateSid st.session_id w }
  match wireResult w with
  | .ok resp =>
    match parseResourcesData (resourcesData resp.result) with
    | .ok rs => (st', rs)
    | .error _ => (st', [])
  | .error _ => (st', [])

/-! ## Theorems -/

/-- What one `data:` payload does to the loop accumulator. -/
def lastParse {J : Type} (parse : List Char → Option J) (acc : Option J) (p : List Char) :
    Option J :=
  match parse p with
  | some v => some v
  | none => acc

theorem foldl_sseStep_eq {J : Type} (parse : List Char → Option J) :
    ∀ (ls : List (List Char)) (acc : Option J),
      ls.foldl (sseStep parse) acc = (ls.filterMap linePayload).foldl (lastParse parse) acc := by
  intro ls
  induction ls with
  | nil => intro acc; rfl
  | cons hd tl ih =>
    intro acc
    rw [List.foldl_cons, List.filterMap_cons]
    cases h : linePayload hd with
    | none =>
      rw [ih]
      congr 1
      simp [sseStep, h]
    | some p =>
      rw [List.foldl_cons, ih]
      congr 1
      simp [sseStep, lastParse, h]

theorem foldl_lastParse_getLast {J : Type} (parse : List Char → Option J) :
    ∀ (ps : List (List Char)) (acc : Option J) (p : List Char) (v : J),
      ps.getLast? = some p → parse p = some v →
      ps.foldl (lastParse parse) acc = some v := by
  intro ps
  induction ps with
  | nil => intro acc p v h _; simp at h
  | cons hd tl ih =>
    intro acc p v hlast hp
    cases tl with
    | nil =>
      simp only [List.getLast?_singleton, Option.some.injEq] at hlast
      subst hlast
      simp [lastParse, hp]
    | cons h2 t2 =>
      rw [List.getLast?_cons_cons] at hlast
      rw [List.foldl_cons]
      exact ih _ p v hlast hp

/-- C1: on an event-stream body, `_parse_sse_response` returns the parsed
payload of the last `data:` line (whenever that payload parses — earlier
lines are overwritten regardless of whether they parsed), and when the body
has no `data:` line at all it parses the entire body as one JSON document
(the code strips the marker and all following whitespace, which a JSON
parser cannot distinguish from stripping one space). -/
theorem sse_decode_last_data {J : Type} (parse : List Char → Option J) (text : List Char) :
    (∀ p v, (dataPayloads text).getLast? = some p → parse p = some v →
      parse_sse_response parse text = .ok v) ∧
    (dataPayloads text = [] →
      parse_sse_response parse text =
        match parse text with
        | some v => .ok v
        | none => .error ()) := by
  have hfold : (pySplitLines text).foldl (sseStep parse) none =
      (dataPayloads text).foldl (lastParse parse) none :=
    foldl_sseStep_eq parse _ none
  constructor
  · intro p v hlast hp
    unfold parse_sse_response
    rw [hfold, foldl_lastParse_getLast parse _ none p v hlast hp]
  · intro hempty
    unfold parse_sse_response
    rw [hfold, hempty]
    rfl

/-- C1 witness: `"data: a\ndata: b"` decodes to the payload of the second
`data:` line. -/
theorem sse_decode_last_data_witness :
    parse_sse_response (fun s => some s) "data: a\ndata: b".toList = .ok ['b'] :=
  (sse_decode_last_data (fun s => some s) "data: a\ndata: b".toList).1 ['b'] ['b']
    (by decide) rfl

/-- C2: against a transport whose exchange raises on attempts 1 and 2 and
succeeds on attempt 3, `connect()` sleeps exactly twice with delays 1 then 2,
ends connected, and returns `True`. -/
theorem connect_third_attempt_succeeds (t : Nat → Wire) (st : ClientState)
    (e₁ e₂ : SendErr) (r : MCPResponseData)
    (h1 : wireResult (t 1) = .error e₁) (h2 : wireResult (t 2) = .error e₂)
    (h3 : wireResult (t 3) = .ok r) :
    (connect t st).sleeps = [1, 2] ∧ (connect t st).state.connected = true ∧
    (connect t st).sends = 3 ∧ (connect t st).outcome = .ok true := by
  simp [connect, connectAux, retry_delays, h1, h2, h3]

/-- C2 witness: a transport refusing twice then answering. -/
def flakyT : Nat → Wire :=
  fun n =>
    if n ≤ 2 then .httpError "refused"
    else .reply (some "tok") (.ok ⟨some [("capabilities", .obj [])], none⟩)

theorem connect_third_attempt_succeeds_witness :
    (connect flakyT initState).sleeps = [1, 2] ∧
    (connect flakyT initState).state.connected = true ∧
    (connect flakyT initState).sends = 3 ∧
    (connect flakyT initState).outcome = .ok true :=
  connect_third_attempt_succeeds flakyT initState
    (.commFailure "refused") (.commFailure "refused")
    ⟨some [("capabilities", .obj [])], none⟩ rfl rfl rfl

/-- C3: against a transport whose exchange raises on every attempt,
`connect()` makes exactly 3 attempts and 2 sleeps (delays 1 then 2), raises
wrapping the last underlying error, and the client stays disconnected. -/
theorem connect_all_attempts_fail (t : Nat → Wire) (e₁ e₂ e₃ : SendErr)
    (h1 : wireResult (t 1) = .error e₁) (h2 : wireResult (t 2) = .error e₂)
    (h3 : wireResult (t 3) = .error e₃) :
    (connect t initState).sends = 3 ∧ (connect t initState).sleeps = [1, 2] ∧
    (connect t initState).outcome =
      .error ("Failed to connect to MCP server: " ++ e₃.toMessage) ∧
    (connect t initState).state.connected = false := by
  simp [connect, connectAux, retry_delays, initState, h1, h2, h3]

/-- C3 witness: a transport refusing every attempt. -/
def deadT : Nat → Wire := fun _ => .httpError "refused"

theorem connect_all_attempts_fail_witness :
    (connect deadT initState).sends = 3 ∧ (connect deadT initState).sleeps = [1, 2] ∧
    (connect deadT initState).outcome =
      .error "Failed to connect to MCP server: Failed to communicate with MCP server: refused" ∧
    (connect deadT initState).state.connected = false :=
  connect_all_attempts_fail deadT
    (.commFailure "refused") (.commFailure "refused") (.commFailure "refused") rfl rfl rfl

/-- A transport answering every attempt with a well-formed response that
carries a protocol-level error object. -/
def errReplyT : Nat → Wire :=
  fun _ => .reply none
    (.ok ⟨none, some [("code", .num (-32600)), ("message", .str "Invalid Request")]⟩)

/-- C4 counterexample: the exchange of attempt 1 yields a well-formed
response carrying an error object (so `_send_request` raises `MCP Error:`),
yet `connect()` does NOT surface it immediately — its catch-all retry loop
sleeps (1 then 2) and makes two further send attempts. -/
theorem connect_protocol_error_retried_cex :
    wireResult (errReplyT 1) = .error (.mcpError "Invalid Request") ∧
    (connect errReplyT initState).sends = 3 ∧
    (connect errReplyT initState).sleeps = [1, 2] :=
  ⟨rfl, rfl, rfl⟩

/-- C4 amended: during `connect()`, a well-formed protocol-level error
response is treated like any other raised failure — after receiving it on
attempt 1 the client sleeps (delay 1 first) and makes at least one further
send attempt.  (Only the post-connection operations surface such an error
without retrying.) -/
theorem connect_protocol_error_retried (t : Nat → Wire) (m : String)
    (h1 : wireResult (t 1) = .error (.mcpError m)) :
    (connect t initState).sleeps.head? = some 1 ∧ 2 ≤ (connect t initState).sends := by
  cases h2 : wireResult (t 2) with
  | ok r => simp [connect, connectAux, retry_delays, h1, h2]
  | error e2 =>
    cases h3 : wireResult (t 3) with
    | ok r => simp [connect, connectAux, retry_delays, h1, h2, h3]
    | error e3 => simp [connect, connectAux, retry_delays, h1, h2, h3]

/-- C4 amended witness: the protocol-error transport above. -/
theorem connect_protocol_error_retried_witness :
    (connect errReplyT initState).sleeps.head? = some 1 ∧
    2 ≤ (connect errReplyT initState).sends :=
  connect_protocol_error_retried errReplyT "Invalid Request" rfl

theorem isPrefixOf_self (l : List Char) : l.isPrefixOf l = true := by
  induction l with
  | nil => rfl
  | cons c t ih => simp [List.isPrefixOf, ih]

theorem containsSeq_append (pre sub : List Char) : containsSeq sub (pre ++ sub) = true := by
  induction pre with
  | nil =>
    cases sub with
    | nil => rfl
    | cons c tail => simp [containsSeq, isPrefixOf_self]
  | cons c pre ih => simp [containsSeq, ih]

/-- C5: whatever failure the exchange raises — HTTP failure, decode failure,
or a protocol-level error response — `call_tool` does not propagate it: it
returns a `ToolCallResponse` with the error flag set and exactly one
synthetic `"text"` content item whose text is `Error: ` followed by the
failure description; for a protocol-level error response that text contains
the server's error message as a contiguous substring. -/
theorem call_tool_flags_failures (w : Wire) (st : ClientState) (e : SendErr)
    (h : wireResult w = .error e) :
    (call_tool w st).2.isError = .bool true ∧
    (call_tool w st).2.content =
      .arr [.obj [("type", .str "text"), ("text", .str ("Error: " ++ e.toMessage))]] ∧
    (∀ m, e = .mcpError m →
      containsSeq m.toList ("Error: " ++ e.toMessage).toList = true) := by
  refine ⟨by simp [call_tool, h], by simp [call_tool, h], ?_⟩
  rintro m rfl
  show containsSeq m.data
    ("Error: ".data ++ ("MCP Error: ".data ++ m.data)) = true
  rw [← List.append_assoc]
  exact containsSeq_append _ _

/-- The exchange the `call_tool` test double performs: a well-formed
response carrying an error object. -/
def invalidParamsW : Wire :=
  .reply none (.ok ⟨none, some [("code", .num (-32602)), ("message", .str "Invalid params")]⟩)

/-- C5 witness: a protocol-level `Invalid params` error response. -/
theorem call_tool_flags_failures_witness :
    (call_tool invalidParamsW initState).2.isError = .bool true ∧
    (call_tool invalidParamsW initState).2.content =
      .arr [.obj [("type", .str "text"),
        ("text", .str ("Error: " ++ (SendErr.mcpError "Invalid params").toMessage))]] ∧
    (∀ m, SendErr.mcpError "Invalid params" = .mcpError m →
      containsSeq m.toList
        ("Error: " ++ (SendErr.mcpError "Invalid params").toMessage).toList = true) :=
  call_tool_flags_failures invalidParamsW initState (.mcpError "Invalid params") rfl

theorem getLast?_cons_eq (a : String) (l : List String) :
    (a :: l).getLast? =
      match l.getLast? with
      | some s => some s
      | none => some a := by
  induction l generalizing a with
  | nil => rfl
  | cons b m ih =>
    rw [List.getLast?_cons_cons]
    rcases h : (b :: m).getLast? with _ | s
    · rw [ih] at h
      rcases hm : m.getLast? with _ | u <;> rw [hm] at h <;> simp at h
    · rfl

theorem sidFold_last_token : ∀ (ws : List Wire) (sid0 : Option String),
    sidFold sid0 ws =
      match (suppliedTokens ws).getLast? with
      | some s => some s
      | none => sid0 := by
  intro ws
  induction ws with
  | nil => intro sid0; rfl
  | cons w tl ih =>
    intro sid0
    have hstep : sidFold sid0 (w :: tl) = sidFold (updateSid sid0 w) tl := rfl
    rw [hstep, ih]
    cases w with
    | httpError m => rfl
    | reply h body =>
      cases h with
      | none => rfl
      | some s =>
        by_cases hs : s = ""
        · subst hs
          simp [updateSid, suppliedTokens]
        · have hupd : updateSid sid0 (.reply (some s) body) = some s := by
            simp [updateSid, hs]
          have htok : suppliedTokens (Wire.reply (some s) body :: tl)
              = s :: suppliedTokens tl := by
            simp [suppliedTokens, hs]
          rw [hupd, htok, getLast?_cons_eq]
          rcases (suppliedTokens tl).getLast? with _ | u <;> rfl

theorem suppliedTokens_ne_empty (ws : List Wire) :
    ∀ s ∈ suppliedTokens ws, s ≠ "" := by
  intro s hs
  simp only [suppliedTokens, List.mem_filterMap] at hs
  obtain ⟨w, _, hw⟩ := hs
  cases w with
  | httpError m => simp at hw
  | reply h body =>
    cases h with
    | none => simp at hw
    | some u =>
      by_cases hu : u = "" <;> simp [hu] at hw
      exact hw ▸ hu

/-- C6: starting from a fresh client (no stored token), the `mcp-session-id`
header attached to the request following a sequence of exchanges is exactly
the most recently supplied non-empty session token of those exchanges — and
`none` when no exchange supplied one, so the client never fabricates a token
and the first request goes out without the header. -/
theorem session_header_is_last_supplied (ws : List Wire) :
    sessionHeaderOf (sidFold none ws) = (suppliedTokens ws).getLast? := by
  rw [sidFold_last_token]
  rcases h : (suppliedTokens ws).getLast? with _ | s
  · rfl
  · have hmem : s ∈ suppliedTokens ws := List.mem_of_mem_getLast? (by rw [h]; rfl)
    have hne : s ≠ "" := suppliedTokens_ne_empty ws s hmem
    simp [sessionHeaderOf, hne]

theorem disconnect_val (w : Wire) (c : Except String Unit) (s : ClientState) :
    disconnect w c s =
      .ok (if s.connected then
        { s with session_id := updateSid s.session_id w, connected := false }
      else s) := by
  cases c <;> cases h : s.connected <;> cases hw : wireResult w <;>
    simp [disconnect, h, hw]

/-- C7: `disconnect()` never raises — whatever the shutdown exchange and the
pool close do, and from any client state (connected, never connected, or
after a failed `connect()`) it returns normally, leaves the client
disconnected, and a second `disconnect()` is a no-op that again returns
normally. -/
theorem disconnect_safe_and_idempotent (w w₂ : Wire) (c c₂ : Except String Unit)
    (st : ClientState) :
    ∃ st', disconnect w c st = .ok st' ∧ st'.connected = false ∧
      disconnect w₂ c₂ st' = .ok st' := by
  refine ⟨if st.connected then
    { st with session_id := updateSid st.session_id w, connected := false }
  else st, disconnect_val w c st, ?_, ?_⟩
  · cases h : st.connected <;> simp [h]
  · rw [disconnect_val w₂ c₂]
    cases h : st.connected <;> simp [h]

/-- C8: on a well-formed success response whose result payload is absent or
lacks the expected key (`"tools"` / `"resources"`), `list_tools()` and
`list_resources()` return the empty list rather than signalling an error. -/
theorem list_missing_key_yields_empty (w : Wire) (st : ClientState)
    (resp : MCPResponseData) (hw : wireResult w = .ok resp) :
    ((∀ res, resp.result = some res → jLookup res "tools" = none) →
      (list_tools w st).2 = []) ∧
    ((∀ res, resp.result = some res → jLookup res "resources" = none) →
      (list_resources w st).2 = []) := by
  constructor
  · intro h
    have hdata : toolsData resp.result = .arr [] := by
      cases hres : resp.result with
      | none => rfl
      | some res => simp [toolsData, jGetD, h res hres]
    simp [list_tools, hw, hdata, parseToolsData]
    rfl
  · intro h
    have hdata : resourcesData resp.result = .arr [] := by
      cases hres : resp.result with
      | none => rfl
      | some res => simp [resourcesData, jGetD, h res hres]
    simp [list_resources, hw, hdata, parseResourcesData]
    rfl

/-- A success response whose result payload has neither expected key. -/
def noListsW : Wire := .reply none (.ok ⟨some [("other", .null)], none⟩)

/-- C8 witness: the no-key success response above. -/
theorem list_missing_key_yields_empty_witness :
    (list_tools noListsW initState).2 = [] ∧ (list_resources noListsW initState).2 = [] :=
  ⟨(list_missing_key_yields_empty noListsW initState ⟨some [("other", .null)], none⟩ rfl).1
      (by intro res h; cases h; rfl),
    (list_missing_key_yields_empty noListsW initState ⟨some [("other", .null)], none⟩ rfl).2
      (by intro res h; cases h; rfl)⟩

theorem exceptBind_ok {α β : Type} (x : Except Unit α) (f : α → Except Unit β) (b : β)
    (h : x >>= f = .ok b) : ∃ a, x = .ok a ∧ f a = .ok b := by
  cases x with
  | error e => simp [Bind.bind, Except.bind] at h
  | ok a => exact ⟨a, rfl, h⟩

theorem parseParam_spec (req : JVal) (nm : String) (info : JVal) (p : ToolParameter)
    (h : parseParam req nm info = .ok p) :
    p.name = nm ∧ pyIn (.str nm) req = .ok p.required := by
  unfold parseParam at h
  obtain ⟨io, hio, h⟩ := exceptBind_ok _ _ _ h
  obtain ⟨ty, hty, h⟩ := exceptBind_ok _ _ _ h
  obtain ⟨desc, hdesc, h⟩ := exceptBind_ok _ _ _ h
  obtain ⟨rq, hrq, h⟩ := exceptBind_ok _ _ _ h
  obtain ⟨en, hen, h⟩ := exceptBind_ok _ _ _ h
  cases h
  exact ⟨rfl, hrq⟩

theorem mapM_params_spec (req : JVal) :
    ∀ (po : Jobj) (ps : List ToolParameter),
      po.mapM (fun kv => parseParam req kv.1 kv.2) = .ok ps →
      ps.map ToolParameter.name = po.map Prod.fst ∧
      ∀ p ∈ ps, pyIn (.str p.name) req = .ok p.required := by
  intro po
  induction po with
  | nil =>
    intro ps h
    simp only [List.mapM_nil, pure, Except.pure, Except.ok.injEq] at h
    subst h
    exact ⟨rfl, by simp⟩
  | cons kv tl ih =>
    intro ps h
    rw [List.mapM_cons] at h
    obtain ⟨p, hp, h⟩ := exceptBind_ok _ _ _ h
    obtain ⟨ptl, hptl, h⟩ := exceptBind_ok _ _ _ h
    simp only [pure, Except.pure, Except.ok.injEq] at h
    subst h
    obtain ⟨hname, hreq⟩ := parseParam_spec _ _ _ _ hp
    obtain ⟨ihname, ihreq⟩ := ih ptl hptl
    refine ⟨by simp [hname, ihname], ?_⟩
    intro q hq
    rcases List.mem_cons.mp hq with rfl | hq'
    · rw [hname]
      exact hreq
    · exact ihreq q hq'

/-- C9: whenever `list_tools`' per-entry flattening succeeds on a tool entry,
the parsed `Tool`'s parameter list is in the insertion order of the schema's
`properties` map (names in map order), and each parameter's `required` flag
is exactly the Python membership test `name in required` on the schema's
`required` value — computed, not copied from the property entry. -/
theorem tool_schema_flattening (t : Jobj) (tool : Tool)
    (h : parseTool (.obj t) = .ok tool) :
    ∃ po req, toolProps t = .ok po ∧ toolRequired t = .ok req ∧
      tool.parameters.map ToolParameter.name = po.map Prod.fst ∧
      ∀ p ∈ tool.parameters, pyIn (.str p.name) req = .ok p.required := by
  unfold parseTool at h
  obtain ⟨to_, hto, h⟩ := exceptBind_ok _ _ _ h
  have hte : t = to_ := by
    simp only [asObj, Except.ok.injEq] at hto
    exact hto
  subst hte
  obtain ⟨po, hpo, h⟩ := exceptBind_ok _ _ _ h
  obtain ⟨req, hreq, h⟩ := exceptBind_ok _ _ _ h
  obtain ⟨params, hparams, h⟩ := exceptBind_ok _ _ _ h
  cases hlk : jLookup t "name" with
  | none =>
    rw [hlk] at h
    simp [Bind.bind, Except.bind] at h
  | some v =>
    rw [hlk] at h
    obtain ⟨nm, hv, h⟩ := exceptBind_ok (asStr v) _ _ h
    obtain ⟨desc, hdesc, h⟩ := exceptBind_ok _ _ _ h
    cases h
    obtain ⟨h1, h2⟩ := mapM_params_spec req po params hparams
    exact ⟨po, req, hpo, hreq, h1, h2⟩

/-- The `"search"` tool entry of the end-to-end scenario: one string
parameter `"query"` listed in `required`. -/
def searchToolObj : Jobj :=
  [("name", .str "search"), ("description", .str "find things"),
    ("inputSchema", .obj [("type", .str "object"),
      ("properties", .obj [("query", .obj [("type", .str "string"),
        ("description", .str "query text")])]),
      ("required", .arr [.str "query"])])]

/-- What `list_tools` parses the `"search"` entry into. -/
def searchTool : Tool :=
  ⟨"search", "find things", [⟨"query", "string", "query text", true, none⟩]⟩

/-- C9 witness: the `"search"` tool with its one required `"query"`
parameter. -/
theorem tool_schema_flattening_witness :
    ∃ po req, toolProps searchToolObj = .ok po ∧ toolRequired searchToolObj = .ok req ∧
      searchTool.parameters.map ToolParameter.name = po.map Prod.fst ∧
      ∀ p ∈ searchTool.parameters, pyIn (.str p.name) req = .ok p.required :=
  tool_schema_flattening searchToolObj searchTool rfl

/-- C10: every raised failure of the exchange — HTTP failure, decode
failure, or protocol-level error response — is absorbed by `list_tools()`
and `list_resources()`, which return the empty list, indistinguishable from
a server that genuinely has no tools or resources. -/
theorem list_ops_absorb_failures (w : Wire) (st : ClientState) (e : SendErr)
    (h : wireResult w = .error e) :
    (list_tools w st).2 = [] ∧ (list_resources w st).2 = [] := by
  constructor <;> simp [list_tools, list_resources, h]

/-- C10 witness: a refused connection. -/
theorem list_ops_absorb_failures_witness :
    (list_tools (.httpError "refused") initState).2 = [] ∧
    (list_resources (.httpError "refused") initState).2 = [] :=
  list_ops_absorb_failures (.httpError "refused") initState
    (.commFailure "refused") rfl

end MCP
